import Mathlib

/-!
A verification development for the BUSY v2 document parser and import
resolver (`packages/busy-python/src/parser.py`).  The Python functions are
shallowly embedded as executable Lean functions over `List Char`; each
regular expression used by the source is translated into an explicit matching
function reproducing the leftmost-search, greedy/lazy and backtracking
behaviour of Python `re` on the constructs the pattern uses.  Exceptions are
modelled with `Except` over an error type distinguishing the three domain
error classes from other (library-raised) exceptions.
-/

set_option maxRecDepth 20000

namespace Busy

/-- Characters of a string; all scanners work on `List Char`. -/
abbrev Chars := List Char

def strChars (s : String) : Chars := s.data

def charsStr (cs : Chars) : String := ⟨cs⟩

/-- Python `\s` on ASCII text (space, tab, newline, carriage return, form feed,
vertical tab). -/
def isPySpace (c : Char) : Bool :=
  c = ' ' || c = '\t' || c = '\n' || c = '\x0d' || c = '\x0c' || c = '\x0b'

/-- Python `\d` on ASCII text. -/
def isPyDigit (c : Char) : Bool := '0' ≤ c && c ≤ '9'

/-- Python `\w` on ASCII text. -/
def isPyWord (c : Char) : Bool :=
  ('a' ≤ c && c ≤ 'z') || ('A' ≤ c && c ≤ 'Z') || isPyDigit c || c = '_'

def lowerC (c : Char) : Char := c.toLower

def lowerL (cs : Chars) : Chars := cs.map lowerC

/-- Python `str.strip()` (whitespace at both ends). -/
def pyStrip (cs : Chars) : Chars :=
  ((cs.dropWhile isPySpace).reverse.dropWhile isPySpace).reverse

/-- Python `str.lstrip("-*")`. -/
def lstripDashStar (cs : Chars) : Chars :=
  cs.dropWhile (fun c => c = '-' || c = '*')

/-- Literal prefix test. -/
def litPrefix (pat cs : Chars) : Bool := pat.isPrefixOf cs

/-- Case-insensitive literal prefix test (for `(?i)` literals). -/
def ciPrefix (pat cs : Chars) : Bool := (lowerL pat).isPrefixOf (lowerL cs)

/-- Substring containment (Python `in`). -/
def containsSub (pat : Chars) : Chars → Bool
  | [] => pat.isEmpty
  | c :: cs => pat.isPrefixOf (c :: cs) || containsSub pat cs

/-- Split on newline characters (Python `str.split("\n")`). -/
def splitLines (cs : Chars) : List Chars :=
  match cs with
  | [] => [[]]
  | '\n' :: rest => [] :: splitLines rest
  | c :: rest =>
    match splitLines rest with
    | [] => [[c]]
    | l :: ls => (c :: l) :: ls

/-- Decimal value of a digit run. -/
def natOfDigits (ds : Chars) : Nat :=
  ds.foldl (fun n c => n * 10 + (c.toNat - 48)) 0

/-- Decimal digits of a number (for cron field rendering). -/
def natToChars (n : Nat) : Chars := Nat.toDigits 10 n

/-! ## Exceptions

`PyExc` models the exceptions that flow through the parser: the three
domain errors from `exceptions.py` plus `otherExc` for any other Python
exception (`ValueError` from the trigger grammar, `pydantic.ValidationError`
from model construction).  Messages of library-raised exceptions are
modelled as descriptive strings; the domain errors carry the exact message
text built by `parser.py`. -/

inductive PyExc where
  | busyValidation (msg : String)
  | busyImport (msg : String)
  | busyParse (msg : String)
  | otherExc (msg : String)
deriving DecidableEq, Repr

instance exceptDecEq {ε α : Type} [DecidableEq ε] [DecidableEq α] :
    DecidableEq (Except ε α)
  | .ok a, .ok b =>
    if h : a = b then .isTrue (by rw [h]) else .isFalse (by simp [h])
  | .ok _, .error _ => .isFalse (by simp)
  | .error _, .ok _ => .isFalse (by simp)
  | .error e, .error f =>
    if h : e = f then .isTrue (by rw [h]) else .isFalse (by simp [h])

/-- Python `str(e)`: the message of the exception. -/
def PyExc.msg : PyExc → String
  | .busyValidation m => m
  | .busyImport m => m
  | .busyParse m => m
  | .otherExc m => m

/-- A single-quote character for building the messages of `parser.py`. -/
def sq : String := "\x27"

/-! ## Time-spec translation (`_parse_time_spec`) -/

/-- The first match of `(\d{1,2})(?::(\d{2}))?\s*(am|pm)?` in a string
(`re.search`): the match can only begin at a digit, so the leftmost match
starts at the first digit; `\d{1,2}` greedily takes two digits when it can,
the `:\d\d` group is taken when present, then whitespace is skipped and an
`am`/`pm` marker is taken if immediately following.  Returns
(hour digits value, minute value, am/pm marker). -/
def findHourMatch : Chars → Option (Nat × Nat × Option Chars)
  | [] => none
  | c :: cs =>
    if isPyDigit c then
      -- \d{1,2} greedy
      let (hds, rest) :=
        match cs with
        | c2 :: cs2 => if isPyDigit c2 then ([c, c2], cs2) else ([c], cs)
        | [] => ([c], cs)
      -- (?::(\d{2}))? greedy
      let (minv, rest2) :=
        match rest with
        | ':' :: m1 :: m2 :: r =>
          if isPyDigit m1 && isPyDigit m2 then (natOfDigits [m1, m2], r)
          else (0, rest)
        | _ => (0, rest)
      -- \s*(am|pm)? : maximal whitespace run, then the marker if present
      let afterWs := rest2.dropWhile isPySpace
      let ap :=
        if litPrefix ['a', 'm'] afterWs then some ['a', 'm']
        else if litPrefix ['p', 'm'] afterWs then some ['p', 'm']
        else none
      some (natOfDigits hds, minv, ap)
    else findHourMatch cs

/-- Weekday detection of `_parse_time_spec`: the `if`/`elif` chain checking
substring containment of the English weekday names in the fixed order
Monday..Sunday, defaulting to `*`. -/
def weekdayField (lowerSpec : Chars) : Chars :=
  if containsSub (strChars "monday") lowerSpec then ['1']
  else if containsSub (strChars "tuesday") lowerSpec then ['2']
  else if containsSub (strChars "wednesday") lowerSpec then ['3']
  else if containsSub (strChars "thursday") lowerSpec then ['4']
  else if containsSub (strChars "friday") lowerSpec then ['5']
  else if containsSub (strChars "saturday") lowerSpec then ['6']
  else if containsSub (strChars "sunday") lowerSpec then ['0']
  else ['*']

/-- `_parse_time_spec`: natural-language time to a 5-field cron string.
Raises `ValueError` (modelled as `otherExc`) when no hour digits are found. -/
def parseTimeSpec (timeSpec : Chars) : Except PyExc Chars :=
  let lowerSpec := lowerL timeSpec
  match findHourMatch lowerSpec with
  | none =>
    .error (.otherExc ("Cannot parse time from " ++ sq ++ charsStr timeSpec ++ sq))
  | some (h, m, ap) =>
    let hour :=
      if ap = some ['p', 'm'] && h ≠ 12 then h + 12
      else if ap = some ['a', 'm'] && h = 12 then 0
      else h
    .ok (natToChars m ++ [' '] ++ natToChars hour ++ strChars " * * " ++
         weekdayField lowerSpec)

/-! ## Trigger model and its pydantic constructor -/

structure Trigger where
  rawText : String
  triggerType : String
  schedule : Option String := none
  eventType : Option String := none
  filter : Option (List (String × String)) := none
  operation : String
  queueWhenPaused : Bool := true
deriving DecidableEq, Repr

/-- Constructor-time validation of the pydantic `Trigger` model
(`min_length=1` on `raw_text` and `operation`); the message of a pydantic
`ValidationError` is modelled abstractly. -/
def mkTrigger (t : Trigger) : Except PyExc Trigger :=
  if t.rawText.length = 0 then
    .error (.otherExc "validation error for Trigger: raw_text too short")
  else if t.operation.length = 0 then
    .error (.otherExc "validation error for Trigger: operation too short")
  else .ok t

/-! ## Trigger declaration grammar (`_parse_trigger_declaration`)

The two `re.match` patterns are translated with their backtracking order:
outer `\s+` runs are tried greedily (longest first), lazy `(.+?)` groups
shortest first, and `.` does not match a newline (no `DOTALL`). -/

/-- The tail `\s+to\s+run\s+(\w+)` of the alarm pattern; the inner `\s+`
runs are committed to their maximal extent because each is followed by a
literal starting with a non-whitespace character. -/
def alarmTail (cs : Chars) : Option Chars :=
  let r1 := cs.takeWhile isPySpace
  if r1.isEmpty then none else
  let c1 := cs.drop r1.length
  if ciPrefix (strChars "to") c1 then
    let c2 := c1.drop 2
    let r2 := c2.takeWhile isPySpace
    if r2.isEmpty then none else
    let c3 := c2.drop r2.length
    if ciPrefix (strChars "run") c3 then
      let c4 := c3.drop 3
      let r3 := c4.takeWhile isPySpace
      if r3.isEmpty then none else
      let w := (c4.drop r3.length).takeWhile isPyWord
      if w.isEmpty then none else some w
    else none
  else none

/-- The tail `,\s*run\s+(\w+)` of the event pattern. -/
def eventTail (cs : Chars) : Option Chars :=
  match cs with
  | ',' :: rest =>
    let r := rest.dropWhile isPySpace
    if ciPrefix (strChars "run") r then
      let a := r.drop 3
      let run := a.takeWhile isPySpace
      if run.isEmpty then none else
      let w := (a.drop run.length).takeWhile isPyWord
      if w.isEmpty then none else some w
    else none
  | _ => none

/-- Lazy `(.+?)` followed by a tail pattern: the group grows from one
character, never across a newline, and the first group for which the tail
matches wins. -/
def lazyDotSearch (tail : Chars → Option Chars) : Chars → Chars → Option (Chars × Chars)
  | _, [] => none
  | acc, c :: rest =>
    if c = '\n' then none
    else
      match tail rest with
      | some w => some (acc ++ [c], w)
      | none => lazyDotSearch tail (acc ++ [c]) rest

/-- Greedy `\s+` before a lazy `(.+?)`: the run length is tried from the
maximal whitespace run down to one, the remainder searched lazily. -/
def tDescentSearch (tail : Chars → Option Chars) (e : Chars) : Nat → Option (Chars × Chars)
  | 0 => none
  | t + 1 =>
    match lazyDotSearch tail [] (e.drop (t + 1)) with
    | some res => some res
    | none => tDescentSearch tail e t

/-- `re.match` of `(?i)set\s+alarm\s+for\s+(.+?)\s+to\s+run\s+(\w+)`,
returning (time-phrase group, operation group). -/
def matchAlarm (text : Chars) : Option (Chars × Chars) :=
  if ciPrefix (strChars "set") text then
    let a := text.drop 3
    let r1 := a.takeWhile isPySpace
    if r1.isEmpty then none else
    let b := a.drop r1.length
    if ciPrefix (strChars "alarm") b then
      let c := b.drop 5
      let r2 := c.takeWhile isPySpace
      if r2.isEmpty then none else
      let d := c.drop r2.length
      if ciPrefix (strChars "for") d then
        let e := d.drop 3
        let run := e.takeWhile isPySpace
        if run.isEmpty then none else
        tDescentSearch alarmTail e run.length
      else none
    else none
  else none

/-- `re.match` of `(?i)when\s+([\w.]+)(?:\s+from\s+(.+?))?,\s*run\s+(\w+)`,
returning (event type, optional filter phrase, operation).  The `[\w.]+`
group is committed to its maximal run (shrinking it can never satisfy the
following whitespace or comma), and the optional from-group is tried before
its omission, as the regex engine does. -/
def matchEvent (text : Chars) : Option (Chars × Option Chars × Chars) :=
  if ciPrefix (strChars "when") text then
    let a := text.drop 4
    let r1 := a.takeWhile isPySpace
    if r1.isEmpty then none else
    let b := a.drop r1.length
    let et := b.takeWhile (fun c => isPyWord c || c = '.')
    if et.isEmpty then none else
    let rest := b.drop et.length
    let fromBranch :=
      let r2 := rest.takeWhile isPySpace
      if r2.isEmpty then none else
      let c := rest.drop r2.length
      if ciPrefix (strChars "from") c then
        let d := c.drop 4
        let run := d.takeWhile isPySpace
        if run.isEmpty then none else
        tDescentSearch eventTail d run.length
      else none
    match fromBranch with
    | some (filt, op) => some (et, some filt, op)
    | none =>
      match eventTail rest with
      | some op => some (et, none, op)
      | none => none
  else none

/-- `_parse_filter_spec`: the phrase becomes `{"from": phrase}` verbatim. -/
def parseFilterSpec (filterSpec : Chars) : List (String × String) :=
  [("from", charsStr filterSpec)]

/-- `_parse_trigger_declaration`: alarm grammar first, then event grammar;
neither matching raises `ValueError` (modelled as `otherExc`). -/
def parseTriggerDeclaration (text : Chars) : Except PyExc Trigger :=
  match matchAlarm text with
  | some (timeSpec, op) => do
    let sched ← parseTimeSpec (pyStrip timeSpec)
    mkTrigger
      { rawText := charsStr text
        triggerType := "alarm"
        schedule := some (charsStr sched)
        operation := charsStr (pyStrip op) }
  | none =>
    match matchEvent text with
    | some (et, filtSpec, op) =>
      let filterDict : Option (List (String × String)) :=
        match filtSpec with
        | some fs =>
          let fss := pyStrip fs
          if fss.isEmpty then none else some (parseFilterSpec fss)
        | none => none
      mkTrigger
        { rawText := charsStr text
          triggerType := "event"
          eventType := some (charsStr (pyStrip et))
          filter := filterDict
          operation := charsStr (pyStrip op)
          queueWhenPaused := true }
    | none =>
      .error (.otherExc ("Unrecognized trigger format. Expected " ++ sq ++
        "Set alarm for <time> to run <Operation>" ++ sq ++ " or " ++ sq ++
        "When <event> [from <filter>], run <Operation>" ++ sq))

/-! ## Data model (`models.py`)

The pydantic record types, with their constructor-time validation
(`min_length=1`, `ge=1`) modelled by `mk…` functions returning `Except`;
the text of a pydantic `ValidationError` is modelled abstractly. -/

structure Metadata where
  name : String
  type : String
  description : String
  provider : Option String := none
deriving DecidableEq, Repr

structure Import where
  conceptName : String
  path : String
  anchor : Option String := none
deriving DecidableEq, Repr

structure LocalDefinition where
  name : String
  content : String
deriving DecidableEq, Repr

structure Step where
  stepNumber : Nat
  instruction : String
  operationReferences : Option (List String) := none
deriving DecidableEq, Repr

structure Checklist where
  items : List String
deriving DecidableEq, Repr

structure Operation where
  name : String
  inputs : List String := []
  outputs : List String := []
  steps : List Step := []
  checklist : Option Checklist := none
deriving DecidableEq, Repr

structure ProviderInfo where
  action : Option String := none
  parameters : Option (List (String × String)) := none
deriving DecidableEq, Repr

structure Tool where
  name : String
  description : String
  inputs : List String := []
  outputs : List String := []
  examples : Option (List String) := none
  providers : Option (List (String × ProviderInfo)) := none
deriving DecidableEq, Repr

structure BusyDocument where
  metadata : Metadata
  imports : List Import := []
  definitions : List LocalDefinition := []
  setup : Option String := none
  operations : List Operation := []
  triggers : List Trigger := []
deriving DecidableEq, Repr

/-- `ToolDocument` extends `BusyDocument` with the tools list. -/
structure ToolDocument extends BusyDocument where
  tools : List Tool := []
deriving DecidableEq, Repr

/-- The value returned by `parse_document`: a plain document or the tool
variant. -/
inductive ParseResult where
  | plain (d : BusyDocument)
  | tool (d : ToolDocument)
deriving DecidableEq, Repr

/-- The `BusyDocument` view of a parse result (attribute access on either
class in Python). -/
def ParseResult.busy : ParseResult → BusyDocument
  | .plain d => d
  | .tool d => d.toBusyDocument

/-- Sequencing of a fallible parse over a list, first failure propagating
(the Python `for` loops that append to a result list). -/
def exceptMapList {α β : Type} (f : α → Except PyExc β) : List α → Except PyExc (List β)
  | [] => .ok []
  | x :: xs =>
    match f x with
    | .error e => .error e
    | .ok y => (exceptMapList f xs).map (fun r => y :: r)

def mkStep (n : Nat) (instr : String) (refs : Option (List String)) :
    Except PyExc Step :=
  if n < 1 then
    .error (.otherExc "validation error for Step: step_number must be >= 1")
  else if instr.length = 0 then
    .error (.otherExc "validation error for Step: instruction too short")
  else .ok ⟨n, instr, refs⟩

def mkOperation (op : Operation) : Except PyExc Operation :=
  if op.name.length = 0 then
    .error (.otherExc "validation error for Operation: name too short")
  else .ok op

def mkTool (t : Tool) : Except PyExc Tool :=
  if t.name.length = 0 then
    .error (.otherExc "validation error for Tool: name too short")
  else if t.description.length = 0 then
    .error (.otherExc "validation error for Tool: description too short")
  else .ok t

def mkLocalDefinition (name content : String) : Except PyExc LocalDefinition :=
  if name.length = 0 then
    .error (.otherExc "validation error for LocalDefinition: name too short")
  else .ok ⟨name, content⟩

/-! ## Generic scanning machinery

Each helper reproduces the behaviour of one regex construct used by
`parser.py`, including backtracking order. -/

/-- The backtick character (for code-fence scanning). -/
def backtick : Char := Char.ofNat 96

def bt3 : Chars := [backtick, backtick, backtick]

/-- All ways to match `\s*\n` at the front of `cs`, greediest first: the
match consumes whitespace through one of the newlines of the maximal
whitespace run.  Returns the suffixes after each possible match. -/
def wsNlSplits (cs : Chars) : List Chars :=
  let run := cs.takeWhile isPySpace
  (((List.range run.length).filter
      (fun i => run.get? i = some '\n')).reverse).map (fun i => cs.drop (i + 1))

/-- `\s*\n` when the trailing pattern always succeeds: the greediest match. -/
def wsNlGreedy (cs : Chars) : Option Chars := (wsNlSplits cs).head?

/-- The lazy scan for the frontmatter close `\n---\s*\n(.*)$`: the first
position whose suffix begins with `\n---` followed by a `\s*\n` match wins;
returns (group before the close, remaining content). -/
def fmFindClose (pre : Chars) : Chars → Option (Chars × Chars)
  | [] => none
  | c :: rest =>
    if c = '\n' && litPrefix ['-', '-', '-'] rest then
      match wsNlGreedy (rest.drop 3) with
      | some r2 => some (pre, r2)
      | none => fmFindClose (pre ++ [c]) rest
    else fmFindClose (pre ++ [c]) rest

/-- `re.match` of `^---\s*\n(.*?)\n---\s*\n(.*)$` (DOTALL): split a document
into (frontmatter text, remaining content).  The opening `\s*\n` is tried
greediest first, and for each choice the close is searched lazily. -/
def fmSplit (content : Chars) : Option (Chars × Chars) :=
  if litPrefix ['-', '-', '-'] content then
    (wsNlSplits (content.drop 3)).findSome? (fun afterOpen => fmFindClose [] afterOpen)
  else none

/-- `re.sub(r"^\[(.+)\]$", r"\1", name)`: unwrap a bracketed label. -/
def stripBrackets (name : Chars) : Chars :=
  match name with
  | '[' :: rest =>
    if rest.length ≥ 2 && rest.getLast? = some ']' then rest.dropLast else name
  | _ => name

/-- Try the label alternatives in the regex's alternation order, each
followed by a greedy `\s*\n`. -/
def matchLabelsWsNl (labels : List Chars) (cs : Chars) : Option Chars :=
  labels.findSome? (fun l =>
    if litPrefix l cs then wsNlGreedy (cs.drop l.length) else none)

/-- A heading match `#…#\s+LABEL\s*\n` at the current position: the given
hash prefix, at least one whitespace character (the maximal run is committed,
labels never start with whitespace), one of the labels, then a greedy
`\s*\n`.  Returns the suffix after the match (the section content start). -/
def matchHeadingAt (hashes : Chars) (labels : List Chars) (cs : Chars) : Option Chars :=
  if litPrefix hashes cs then
    let rest := cs.drop hashes.length
    let run := rest.takeWhile isPySpace
    if run.isEmpty then none
    else matchLabelsWsNl labels (rest.drop run.length)
  else none

/-- `re.search` for a heading (leftmost position, not anchored to line
starts — the patterns have no MULTILINE flag). -/
def searchHeading (hashes : Chars) (labels : List Chars) : Chars → Option Chars
  | [] => none
  | c :: rest =>
    match matchHeadingAt hashes labels (c :: rest) with
    | some r => some r
    | none => searchHeading hashes labels rest

/-- The lookahead `\n#…#\s+` (for each hash count in `stops`) used to end a
lazy section group. -/
def stopHere (stops : List Nat) (cs : Chars) : Bool :=
  match cs with
  | '\n' :: rest =>
    stops.any (fun k =>
      litPrefix (List.replicate k '#') rest &&
      (match (rest.drop k).head? with
       | some c => isPySpace c
       | none => false))
  | _ => false

/-- A lazy `(.*?)` stopped by the first `\n#…#\s+` lookahead or the end of
the string. -/
def cutAtStop (stops : List Nat) : Chars → Chars
  | [] => []
  | c :: rest => if stopHere stops (c :: rest) then [] else c :: cutAtStop stops rest

/-- A section pattern `HASHES\s+(LABELS)\s*\n(.*?)(?=STOPS|\Z)`: search for
the heading, then cut the lazy group at the stop lookahead. -/
def searchSection (hashes : Chars) (labels : List Chars) (stops : List Nat)
    (cs : Chars) : Option Chars :=
  (searchHeading hashes labels cs).map (cutAtStop stops)

/-- Label alternative lists, in the alternation order of the patterns. -/
def labelAlts (singular : String) (plural : String) : List Chars :=
  [strChars ("[" ++ plural ++ "]"), strChars ("[" ++ singular ++ "]"),
   strChars plural, strChars singular]

/-! ### Code fences (`_find_code_fence_regions`) -/

/-- The lazy search for the closing `^```` of a fence: first line-start
triple backtick. -/
def findFenceClose : Chars → Nat → Bool → Option Nat
  | [], _, _ => none
  | c :: rest, pos, atLS =>
    if atLS && litPrefix bt3 (c :: rest) then some pos
    else findFenceClose rest (pos + 1) (c = '\n')

/-- After an opening line-start ```` ``` ````: the rest of the opening line
(`[^\n]*\n`); returns (offset of the body from the fence start, body). -/
def fenceBody (cs : Chars) : Option (Nat × Chars) :=
  let rest := cs.drop 3
  let info := rest.takeWhile (· ≠ '\n')
  match rest.drop info.length with
  | '\n' :: body => some (3 + info.length + 1, body)
  | _ => none

/-- `re.finditer` of `^```[^\n]*\n(.*?)^```` (DOTALL, MULTILINE): each match
yields the span from the opening fence to just after the closing triple
backtick; scanning resumes after the match. -/
def findFencesAux : Nat → Chars → Nat → Bool → List (Nat × Nat)
  | 0, _, _, _ => []
  | fuel + 1, cs, pos, atLS =>
    match cs with
    | [] => []
    | c :: rest =>
      if atLS && litPrefix bt3 (c :: rest) then
        match fenceBody (c :: rest) with
        | some (off, body) =>
          match findFenceClose body (pos + off) true with
          | some m =>
            let fenceEnd := m + 3
            (pos, fenceEnd) ::
              findFencesAux fuel ((c :: rest).drop (fenceEnd - pos)) fenceEnd false
          | none => findFencesAux fuel rest (pos + 1) (c = '\n')
        | none => findFencesAux fuel rest (pos + 1) (c = '\n')
      else findFencesAux fuel rest (pos + 1) (c = '\n')

def findCodeFenceRegions (cs : Chars) : List (Nat × Nat) :=
  findFencesAux (cs.length + 1) cs 0 true

/-- `_is_position_in_code_fence`. -/
def isPositionInCodeFence (pos : Nat) (regions : List (Nat × Nat)) : Bool :=
  regions.any (fun r => r.1 ≤ pos && pos < r.2)

/-! ### Level-2 heading scan (`^##\s+([^\n]+)` with MULTILINE) -/

/-- `\s+([^\n]+)` with greedy backtracking over the whitespace length:
longest run first, shrinking until the group can start with a non-newline
character.  Returns (consumed whitespace length, group). -/
def wsGroupDescentAux (after : Chars) : Nat → Option (Nat × Chars)
  | 0 => none
  | t + 1 =>
    let s := after.drop (t + 1)
    match s.head? with
    | some c =>
      if c ≠ '\n' then some (t + 1, s.takeWhile (· ≠ '\n'))
      else wsGroupDescentAux after t
    | none => wsGroupDescentAux after t

def wsGroupDescent (after : Chars) : Option (Nat × Chars) :=
  wsGroupDescentAux after (after.takeWhile isPySpace).length

/-- `\s+([^\n]+)\n` (a group that must be followed by a literal newline). -/
def wsGroupNlDescentAux (after : Chars) : Nat → Option (Nat × Chars)
  | 0 => none
  | t + 1 =>
    let s := after.drop (t + 1)
    let g := s.takeWhile (· ≠ '\n')
    if !g.isEmpty && (s.drop g.length).head? = some '\n' then some (t + 1, g)
    else wsGroupNlDescentAux after t

def wsGroupNlDescent (after : Chars) : Option (Nat × Chars) :=
  wsGroupNlDescentAux after (after.takeWhile isPySpace).length

/-- `re.finditer` of `^##\s+([^\n]+)` (MULTILINE): all level-2 headings,
as (match start position, name group); scanning resumes after each match. -/
def scanH2Aux : Nat → Chars → Nat → Bool → List (Nat × Chars)
  | 0, _, _, _ => []
  | fuel + 1, cs, pos, atLS =>
    match cs with
    | [] => []
    | c :: rest =>
      if atLS && litPrefix ['#', '#'] (c :: rest) then
        match wsGroupDescent ((c :: rest).drop 2) with
        | some (t, g) =>
          let len := 2 + t + g.length
          (pos, g) :: scanH2Aux fuel ((c :: rest).drop len) (pos + len) false
        | none => scanH2Aux fuel rest (pos + 1) (c = '\n')
      else scanH2Aux fuel rest (pos + 1) (c = '\n')

def scanH2 (cs : Chars) : List (Nat × Chars) := scanH2Aux (cs.length + 1) cs 0 true

/-- Slice `[s, e)` of a character list. -/
def slice (cs : Chars) (s e : Nat) : Chars := (cs.drop s).take (e - s)

/-- Item contents between consecutive boundaries (to the next boundary or
the section end). -/
def boundarySlices (sec : Chars) : List (Nat × Chars) → List (Chars × Chars)
  | [] => []
  | (p, n) :: rest =>
    let e := match rest with
      | (q, _) :: _ => q
      | [] => sec.length
    (n, slice sec p e) :: boundarySlices sec rest

/-- `re.sub(r"^##\s+[^\n]+\n", "", content, count=1)`: remove the item's own
heading line (anchored at the string start, no MULTILINE). -/
def subItemHeading (cs : Chars) : Chars :=
  if litPrefix ['#', '#'] cs then
    match wsGroupNlDescent (cs.drop 2) with
    | some (t, g) => cs.drop (2 + t + g.length + 1)
    | none => cs
  else cs

/-- Bullet items of a sub-section: stripped lines beginning with `-` or `*`,
marker characters stripped from the left, then stripped again. -/
def bulletItems (text : Chars) : List Chars :=
  (splitLines text).filterMap (fun l =>
    let ls := pyStrip l
    match ls.head? with
    | some c =>
      if c = '-' || c = '*' then some (pyStrip (lstripDashStar ls)) else none
    | none => none)

/-! ### Steps (`(\d+)\.\s+([^\n]+(?:\n(?!\d+\.)[^\n]+)*)`) -/

/-- Continuation lines of a step: repeatedly a newline, a negative lookahead
refusing a numbered line, and a non-empty line. -/
def contLines : Nat → Chars → (Chars × Chars)
  | 0, cs => ([], cs)
  | fuel + 1, cs =>
    match cs with
    | '\n' :: rest =>
      let d := rest.takeWhile isPyDigit
      if !d.isEmpty && (rest.drop d.length).head? = some '.' then ([], cs)
      else
        let line := rest.takeWhile (· ≠ '\n')
        if line.isEmpty then ([], cs)
        else
          let (tail, rem) := contLines fuel (rest.drop line.length)
          ('\n' :: (line ++ tail), rem)
    | _ => ([], cs)

/-- A step match at the current position: a maximal digit run, a dot, then
`\s+([^\n]+)` with continuations.  Returns (number, raw instruction group,
suffix after the match). -/
def matchStepAt (cs : Chars) : Option (Nat × Chars × Chars) :=
  let d := cs.takeWhile isPyDigit
  if d.isEmpty then none else
  match cs.drop d.length with
  | '.' :: r2 =>
    match wsGroupDescent r2 with
    | some (t, firstLine) =>
      let afterFirst := r2.drop (t + firstLine.length)
      let (tail, rem) := contLines (afterFirst.length + 1) afterFirst
      some (natOfDigits d, firstLine ++ tail, rem)
    | none => none
  | _ => none

/-- `re.finditer` of the step pattern (unanchored). -/
def scanStepsAux : Nat → Chars → List (Nat × Chars)
  | 0, _ => []
  | fuel + 1, cs =>
    match cs with
    | [] => []
    | c :: rest =>
      match matchStepAt (c :: rest) with
      | some (n, g, rem) => (n, g) :: scanStepsAux fuel rem
      | none => scanStepsAux fuel rest

def scanSteps (cs : Chars) : List (Nat × Chars) := scanStepsAux (cs.length + 1) cs

/-- `re.findall(r"\[([^\]]+)\]", instruction)`: bracketed substrings. -/
def findBracketRefs : Nat → Chars → List Chars
  | 0, _ => []
  | fuel + 1, cs =>
    match cs with
    | [] => []
    | '[' :: rest =>
      let g := rest.takeWhile (· ≠ ']')
      if !g.isEmpty && (rest.drop g.length).head? = some ']' then
        g :: findBracketRefs fuel (rest.drop (g.length + 1))
      else findBracketRefs fuel rest
    | _ :: rest => findBracketRefs fuel rest

/-! ### Imports (`\[([^\]]+)\]:\s*([^\s#]+)(?:#([^\s]+))?`) -/

/-- An import-reference match at the current position; returns (concept,
path, optional anchor, suffix after the match). -/
def matchImportAt (cs : Chars) : Option (Chars × Chars × Option Chars × Chars) :=
  match cs with
  | '[' :: rest =>
    let g := rest.takeWhile (· ≠ ']')
    if g.isEmpty then none else
    match rest.drop g.length with
    | ']' :: ':' :: r2 =>
      let ws := r2.takeWhile isPySpace
      let r3 := r2.drop ws.length
      let p := r3.takeWhile (fun c => !isPySpace c && c ≠ '#')
      if p.isEmpty then none else
      let r4 := r3.drop p.length
      match r4 with
      | '#' :: r5 =>
        let a := r5.takeWhile (fun c => !isPySpace c)
        if a.isEmpty then some (g, p, none, r4)
        else some (g, p, some a, r5.drop a.length)
      | _ => some (g, p, none, r4)
    | _ => none
  | _ => none

/-- `re.finditer` of the import pattern over the whole body: no fence
exclusion and no section confinement. -/
def scanImportsAux : Nat → Chars → List Import
  | 0, _ => []
  | fuel + 1, cs =>
    match cs with
    | [] => []
    | c :: rest =>
      match matchImportAt (c :: rest) with
      | some (g, p, a, rem) =>
        ⟨charsStr g, charsStr p, a.map charsStr⟩ :: scanImportsAux fuel rem
      | none => scanImportsAux fuel rest

/-- `_parse_imports`. -/
def parseImports (content : Chars) : List Import :=
  scanImportsAux (content.length + 1) content

/-! ## YAML values and the frontmatter loader

`yaml.safe_load` is an external library (a collaborator of the parser).
`Yaml` models the values it can return; `yamlLoadSubset` models its
behaviour on the subset of YAML that BUSY frontmatter uses: top-level
`Key: value` lines whose value is a plain scalar, a double-quoted scalar, a
flow sequence of plain scalars such as `[Tool]` (or the empty `[]`), or
empty with a following block sequence of one-pair mappings
(`- key: value` lines, as used by `Triggers`).  On this subset it agrees
with `yaml.safe_load`; out-of-subset lines are ignored. -/

mutual
inductive Yaml where
  | str (s : String)
  | bool (b : Bool)
  | null
  | list (xs : YamlList)
  | map (kvs : YamlKvs)
deriving DecidableEq, Repr

inductive YamlList where
  | nil
  | cons (hd : Yaml) (tl : YamlList)
deriving DecidableEq, Repr

inductive YamlKvs where
  | nil
  | cons (k : String) (v : Yaml) (tl : YamlKvs)
deriving DecidableEq, Repr
end

def yamlListToList : YamlList → List Yaml
  | .nil => []
  | .cons h t => h :: yamlListToList t

/-- Python `dict` lookup (`.get`); load-time duplicate keys were already
collapsed, so the first hit is the value. -/
def YamlKvs.lookup : YamlKvs → String → Option Yaml
  | .nil, _ => none
  | .cons k v tl, key => if k = key then some v else tl.lookup key

def YamlKvs.hasKey (kvs : YamlKvs) (key : String) : Bool :=
  (kvs.lookup key).isSome

/-- Python `dict` assignment: replace in place or append. -/
def YamlKvs.update : YamlKvs → String → Yaml → YamlKvs
  | .nil, k, v => .cons k v .nil
  | .cons k0 v0 tl, k, v =>
    if k0 = k then .cons k0 v tl else .cons k0 v0 (tl.update k v)

/-- Python truthiness of a YAML-loaded value. -/
def Yaml.truthy : Yaml → Bool
  | .str s => s ≠ ""
  | .bool b => b
  | .null => false
  | .list .nil => false
  | .list _ => true
  | .map .nil => false
  | .map _ => true

def Yaml.isMap : Yaml → Bool
  | .map _ => true
  | _ => false

/-- Python `str()` of a loaded value (only scalars are ever rendered by the
parser; container renderings are modelled abstractly). -/
def Yaml.pyStr : Yaml → String
  | .str s => s
  | .bool b => if b then "True" else "False"
  | .null => "None"
  | .list _ => "<list>"
  | .map _ => "<dict>"

/-- Python `type(x)` rendering for error messages. -/
def Yaml.pyTypeName : Yaml → String
  | .str _ => "<class " ++ sq ++ "str" ++ sq ++ ">"
  | .bool _ => "<class " ++ sq ++ "bool" ++ sq ++ ">"
  | .null => "<class " ++ sq ++ "NoneType" ++ sq ++ ">"
  | .list _ => "<class " ++ sq ++ "list" ++ sq ++ ">"
  | .map _ => "<class " ++ sq ++ "dict" ++ sq ++ ">"

/-- Split a line at its first colon. -/
def splitFirstColon (cs : Chars) : Option (Chars × Chars) :=
  let k := cs.takeWhile (· ≠ ':')
  match cs.drop k.length with
  | ':' :: rest => some (k, rest)
  | _ => none

/-- Split flow-sequence content on commas. -/
def splitOnComma : Chars → List Chars
  | [] => [[]]
  | ',' :: rest => [] :: splitOnComma rest
  | c :: rest =>
    match splitOnComma rest with
    | [] => [[c]]
    | l :: ls => (c :: l) :: ls

/-- A scalar as `yaml.safe_load` reads it on the supported subset. -/
def scalarOf (vs : Chars) : Yaml :=
  match vs with
  | '[' :: rest =>
    if rest.getLast? = some ']' then
      let inner := pyStrip rest.dropLast
      if inner.isEmpty then .list .nil
      else
        .list ((splitOnComma inner).foldr
          (fun x acc => .cons (.str (charsStr (pyStrip x))) acc) .nil)
    else .str (charsStr vs)
  | '"' :: rest =>
    if rest.getLast? = some '"' then .str (charsStr rest.dropLast)
    else .str (charsStr vs)
  | _ =>
    if vs = strChars "true" then .bool true
    else if vs = strChars "false" then .bool false
    else if vs = strChars "null" then .null
    else .str (charsStr vs)

/-- Block-sequence items (`- key: value` / `- scalar` lines) following a
bare `Key:` line; stops at the first non-item line. -/
def seqItems : List Chars → (YamlList × List Chars)
  | [] => (.nil, [])
  | l :: ls =>
    match pyStrip l with
    | '-' :: restLine =>
      let item := pyStrip restLine
      let node :=
        match splitFirstColon item with
        | some (k, v) =>
          Yaml.map (.cons (charsStr (pyStrip k)) (scalarOf (pyStrip v)) .nil)
        | none => scalarOf item
      let (tl, rem) := seqItems ls
      (.cons node tl, rem)
    | _ => (.nil, l :: ls)

def yamlLoadAux : Nat → List Chars → YamlKvs → YamlKvs
  | 0, _, acc => acc
  | _ + 1, [], acc => acc
  | fuel + 1, l :: ls, acc =>
    if (pyStrip l).isEmpty then yamlLoadAux fuel ls acc
    else
      match splitFirstColon l with
      | some (k, v) =>
        let key := charsStr (pyStrip k)
        let vs := pyStrip v
        if vs.isEmpty then
          let (items, rem) := seqItems ls
          match items with
          | .nil => yamlLoadAux fuel rem (acc.update key .null)
          | _ => yamlLoadAux fuel rem (acc.update key (.list items))
        else yamlLoadAux fuel ls (acc.update key (scalarOf vs))
      | none => yamlLoadAux fuel ls acc

def yamlLoadSubset (cs : Chars) : Yaml :=
  let kvs := yamlLoadAux (cs.length + 2) (splitLines cs) .nil
  match kvs with
  | .nil => if (pyStrip cs).isEmpty then .null else .str (charsStr (pyStrip cs))
  | _ => .map kvs

/-! ## Frontmatter extraction (`_extract_metadata`) -/

/-- Lines 66–69 of `parser.py`: a Type value the YAML layer decoded as a
sequence is rewound to its bracket-string form; other values are kept. -/
def rewindType : Yaml → Yaml
  | .list .nil => .str "[]"
  | .list (.cons x _) => .str ("[" ++ x.pyStr ++ "]")
  | v => v

/-- Constructor-time validation of the pydantic `Metadata` model. -/
def buildMetadata (nameV typeV descV : Yaml) (provV : Option Yaml) :
    Except PyExc Metadata :=
  match nameV with
  | .str n =>
    if n.length = 0 then
      .error (.otherExc "validation error for Metadata: name too short")
    else
      match typeV with
      | .str t =>
        match descV with
        | .str d =>
          if d.length = 0 then
            .error (.otherExc "validation error for Metadata: description too short")
          else
            match provV with
            | none => .ok ⟨n, t, d, none⟩
            | some .null => .ok ⟨n, t, d, none⟩
            | some (.str p) => .ok ⟨n, t, d, some p⟩
            | some _ =>
              .error (.otherExc "validation error for Metadata: provider must be a string")
        | _ => .error (.otherExc "validation error for Metadata: description must be a string")
      | _ => .error (.otherExc "validation error for Metadata: type must be a string")
  | _ => .error (.otherExc "validation error for Metadata: name must be a string")

def requiredFieldMissing (kvs : YamlKvs) : Option String :=
  (["Name", "Type", "Description"].find? (fun f => !kvs.hasKey f))

def extractMetadata (content : Chars) : Except PyExc (Metadata × Chars × Yaml) :=
  match fmSplit content with
  | none =>
    .error (.busyValidation
      "Document missing metadata section (YAML frontmatter with --- fences)")
  | some (yamlContent, remaining) =>
    let data := yamlLoadSubset yamlContent
    match data with
    | .map kvs =>
      match requiredFieldMissing kvs with
      | some f =>
        .error (.busyValidation
          ("Missing required field " ++ sq ++ f ++ sq ++ " in document metadata"))
      | none =>
        let typeV := rewindType ((kvs.lookup "Type").getD .null)
        match buildMetadata ((kvs.lookup "Name").getD .null) typeV
            ((kvs.lookup "Description").getD .null) (kvs.lookup "Provider") with
        | .ok md => .ok (md, remaining, data)
        | .error e =>
          .error (.busyValidation ("Invalid metadata data: " ++ e.msg))
    | _ => .error (.busyValidation "Document metadata must be a YAML dictionary")

/-! ## Local definitions and setup -/

def ldLabels : List Chars := [strChars "[Local Definitions]", strChars "Local Definitions"]

def setupLabels : List Chars := [strChars "[Setup]", strChars "Setup"]

/-- A match of `##\s+([^\n]+)\n(.*?)(?=\n##\s+|\Z)` at the current position
(no MULTILINE: `##` can match anywhere). -/
def matchDefItemAt (cs : Chars) : Option (Chars × Chars × Chars) :=
  if litPrefix ['#', '#'] cs then
    match wsGroupNlDescent (cs.drop 2) with
    | some (t, g) =>
      let after := cs.drop (2 + t + g.length + 1)
      let content := cutAtStop [2] after
      some (g, content, cs.drop (2 + t + g.length + 1 + content.length))
    | none => none
  else none

def scanDefItemsAux : Nat → Chars → List (Chars × Chars)
  | 0, _ => []
  | fuel + 1, cs =>
    match cs with
    | [] => []
    | c :: rest =>
      match matchDefItemAt (c :: rest) with
      | some (name, content, rem) => (name, content) :: scanDefItemsAux fuel rem
      | none => scanDefItemsAux fuel rest

def parseLocalDefinitions (content : Chars) : Except PyExc (List LocalDefinition) :=
  match searchSection ['#'] ldLabels [1] content with
  | none => .ok []
  | some sec =>
    exceptMapList (fun nc =>
      mkLocalDefinition (charsStr (stripBrackets (pyStrip nc.1)))
        (charsStr (pyStrip nc.2))) (scanDefItemsAux (sec.length + 1) sec)

def parseSetup (content : Chars) : Option String :=
  (searchSection ['#'] setupLabels [1] content).map (fun sec => charsStr (pyStrip sec))

/-! ## Operations block parser (`_parse_operations`) -/

def opsLabels : List Chars := [strChars "[Operations]", strChars "Operations"]

def labelAltsOf (singular plural : String) : List Chars :=
  [strChars ("[" ++ plural ++ "]"), strChars ("[" ++ singular ++ "]"),
   strChars plural, strChars singular]

def opSubsection (labels : List Chars) (stops : List Nat) (opContent : Chars) :
    Option Chars :=
  searchSection ['#', '#', '#'] labels stops opContent

def parseStepsText (stepsText : Chars) : Except PyExc (List Step) :=
  exceptMapList (fun ng =>
    let instr := pyStrip ng.2
    let refs := findBracketRefs (instr.length + 1) instr
    mkStep ng.1 (charsStr instr)
      (if refs.isEmpty then none else some (refs.map charsStr))) (scanSteps stepsText)

def parseOperationItem (name raw : Chars) : Except PyExc Operation := do
  let opContent := pyStrip (subItemHeading raw)
  let inputs :=
    match opSubsection (labelAltsOf "Input" "Inputs") [3] opContent with
    | some t => bulletItems t
    | none => []
  let outputs :=
    match opSubsection (labelAltsOf "Output" "Outputs") [3] opContent with
    | some t => bulletItems t
    | none => []
  let steps ←
    match opSubsection (labelAltsOf "Step" "Steps") [3] opContent with
    | some t => parseStepsText t
    | none => pure []
  let checklist :=
    match opSubsection [strChars "[Checklist]", strChars "Checklist"] [3, 2] opContent with
    | some t =>
      let items := bulletItems t
      if items.isEmpty then none else some (Checklist.mk (items.map charsStr))
    | none => none
  mkOperation
    { name := charsStr name, inputs := inputs.map charsStr,
      outputs := outputs.map charsStr, steps := steps, checklist := checklist }

def parseOperations (content : Chars) : Except PyExc (List Operation) :=
  match searchHeading ['#'] opsLabels content with
  | none => .ok []
  | some sec =>
    let fences := findCodeFenceRegions sec
    let bs := (scanH2 sec).filterMap (fun pn =>
      if isPositionInCodeFence pn.1 fences then none
      else some (pn.1, stripBrackets (pyStrip pn.2)))
    exceptMapList (fun nc => parseOperationItem nc.1 nc.2) (boundarySlices sec bs)

/-! ## Tools block parser (`_parse_tools_section`)

Note: the section heading pattern of `_parse_tools_section` is
`#\s+(?:\[Operations?\]|Operations?)\s*\n(.*)$` — the `Operations` /
`Operation` label family, not `Tools`/`Tool`. -/

def toolsLabels : List Chars := labelAltsOf "Operation" "Operations"

/-- Providers: `####\s+([^\n]+)\n(.*?)(?=\n####\s+|\Z)` matches. -/
def matchProviderAt (cs : Chars) : Option (Chars × Chars × Chars) :=
  if litPrefix ['#', '#', '#', '#'] cs then
    match wsGroupNlDescent (cs.drop 4) with
    | some (t, g) =>
      let after := cs.drop (4 + t + g.length + 1)
      let content := cutAtStop [4] after
      some (g, content, cs.drop (4 + t + g.length + 1 + content.length))
    | none => none
  else none

def scanProvidersAux : Nat → Chars → List (Chars × Chars)
  | 0, _ => []
  | fuel + 1, cs =>
    match cs with
    | [] => []
    | c :: rest =>
      match matchProviderAt (c :: rest) with
      | some (name, content, rem) => (name, content) :: scanProvidersAux fuel rem
      | none => scanProvidersAux fuel rest

/-- `\s*([^\n]+)` with greedy backtracking (run length down to zero). -/
def wsStarGroupDescentAux (after : Chars) : Nat → Option Chars
  | 0 =>
    match after.head? with
    | some c => if c ≠ '\n' then some (after.takeWhile (· ≠ '\n')) else none
    | none => none
  | t + 1 =>
    let s := after.drop (t + 1)
    match s.head? with
    | some c =>
      if c ≠ '\n' then some (s.takeWhile (· ≠ '\n'))
      else wsStarGroupDescentAux after t
    | none => wsStarGroupDescentAux after t

def wsStarGroupDescent (after : Chars) : Option Chars :=
  wsStarGroupDescentAux after (after.takeWhile isPySpace).length

/-- `re.search(r"Action:\s*([^\n]+)", content)`. -/
def searchAction : Chars → Option Chars
  | [] => none
  | c :: rest =>
    match
      (if litPrefix (strChars "Action:") (c :: rest) then
        wsStarGroupDescent ((c :: rest).drop 7)
      else none) with
    | some g => some g
    | none => searchAction rest

/-- The lookahead `\n(?:Action|####)` ending the Parameters group. -/
def stopParams (cs : Chars) : Bool :=
  match cs with
  | '\n' :: rest =>
    litPrefix (strChars "Action") rest || litPrefix (strChars "####") rest
  | _ => false

def paramCut : Chars → Chars
  | [] => []
  | c :: rest => if stopParams (c :: rest) then [] else c :: paramCut rest

/-- `re.search(r"Parameters:\s*\n(.*?)(?=\n(?:Action|####)|\Z)", content)`. -/
def searchParams : Chars → Option Chars
  | [] => none
  | c :: rest =>
    match
      (if litPrefix (strChars "Parameters:") (c :: rest) then
        (wsNlGreedy ((c :: rest).drop 11)).map paramCut
      else none) with
    | some g => some g
    | none => searchParams rest

def assocUpdate {α : Type} : List (String × α) → String → α → List (String × α)
  | [], k, v => [(k, v)]
  | (k0, v0) :: tl, k, v =>
    if k0 = k then (k0, v) :: tl else (k0, v0) :: assocUpdate tl k v

/-- `key: value` parameter lines under `Parameters:`. -/
def parseParamLines (t : Chars) : List (String × String) :=
  (splitLines t).foldl (fun acc l =>
    let ls := pyStrip l
    match splitFirstColon ls with
    | some kv => assocUpdate acc (charsStr (pyStrip kv.1)) (charsStr (pyStrip kv.2))
    | none => acc) []

def parseProvidersText (t : Chars) : List (String × ProviderInfo) :=
  (scanProvidersAux (t.length + 1) t).foldl (fun acc nc =>
    let providerContent := pyStrip nc.2
    let action := (searchAction providerContent).map (fun g => charsStr (pyStrip g))
    let params :=
      match searchParams providerContent with
      | some pt =>
        let ps := parseParamLines pt
        if ps.isEmpty then none else some ps
      | none => none
    assocUpdate acc (charsStr (pyStrip nc.1)) ⟨action, params⟩) []

def parseToolItem (name raw : Chars) : Except PyExc Tool := do
  let toolContent := pyStrip (subItemHeading raw)
  let description := pyStrip (cutAtStop [3] toolContent)
  if description.isEmpty then
    throw (.busyValidation ("Tool " ++ sq ++ charsStr name ++ sq ++ " missing description"))
  let inputs :=
    match opSubsection (labelAltsOf "Input" "Inputs") [3] toolContent with
    | some t => bulletItems t
    | none => []
  let outputs :=
    match opSubsection (labelAltsOf "Output" "Outputs") [3] toolContent with
    | some t => bulletItems t
    | none => []
  let examples :=
    match opSubsection (labelAltsOf "Example" "Examples") [3] toolContent with
    | some t =>
      let es := bulletItems t
      if es.isEmpty then none else some (es.map charsStr)
    | none => none
  let providers :=
    match opSubsection (labelAltsOf "Provider" "Providers") [2] toolContent with
    | some t =>
      let ps := parseProvidersText t
      if ps.isEmpty then none else some ps
    | none => none
  mkTool
    { name := charsStr name, description := charsStr description,
      inputs := inputs.map charsStr, outputs := outputs.map charsStr,
      examples := examples, providers := providers }

def parseToolsSection (content : Chars) : Except PyExc (List Tool) :=
  match searchHeading ['#'] toolsLabels content with
  | none => .ok []
  | some sec =>
    let fences := findCodeFenceRegions sec
    let bs := (scanH2 sec).filterMap (fun pn =>
      if isPositionInCodeFence pn.1 fences then none
      else some (pn.1, stripBrackets (pyStrip pn.2)))
    exceptMapList (fun nc => parseToolItem nc.1 nc.2) (boundarySlices sec bs)

/-! ## Markdown triggers section (`_parse_triggers`) -/

def triggersLabels : List Chars := labelAltsOf "Trigger" "Triggers"

/-- `_parse_triggers`: the section's bullet lines, each parsed as a trigger
declaration; any exception is wrapped as a validation error citing the
bullet text. -/
def parseTriggers (content : Chars) : Except PyExc (List Trigger) :=
  match searchHeading ['#'] triggersLabels content with
  | none => .ok []
  | some sec =>
    (splitLines sec).foldlM (fun acc line =>
      let ls := pyStrip line
      match ls.head? with
      | some c =>
        if c = '-' || c = '*' then
          let t := pyStrip (lstripDashStar ls)
          if t.isEmpty then pure acc
          else
            match parseTriggerDeclaration t with
            | .ok tr => pure (acc ++ [tr])
            | .error e =>
              throw (.busyValidation ("Invalid trigger declaration " ++ sq ++
                charsStr t ++ sq ++ ": " ++ e.msg))
        else pure acc
      | none => pure acc) []

/-! ## Frontmatter triggers (`_parse_frontmatter_triggers`) -/

def kvsToPairs : YamlKvs → Except PyExc (List (String × String))
  | .nil => .ok []
  | .cons k v tl =>
    match v with
    | .str s => (kvsToPairs tl).map (fun r => (k, s) :: r)
    | _ => .error (.otherExc "validation error for Trigger: filter values must be strings")

/-- The `filters` value: a truthy non-dict is a validation error; a dict
becomes the filter; a falsy value slips past the isinstance check and is
judged by the pydantic field. -/
def fmTriggerFilter : Option Yaml → Except PyExc (Option (List (String × String)))
  | none => .ok none
  | some f =>
    if f.truthy then
      match f with
      | .map kvs => (kvsToPairs kvs).map some
      | _ =>
        .error (.busyValidation ("Trigger filters must be a dictionary, got: " ++ f.pyTypeName))
    else
      match f with
      | .null => .ok none
      | .map _ => .ok (some [])
      | _ => .error (.otherExc "validation error for Trigger: filter must be a dict")

def fmTriggerQwp : Option Yaml → Except PyExc Bool
  | none => .ok true
  | some (.bool b) => .ok b
  | some _ => .error (.otherExc "validation error for Trigger: queue_when_paused must be a bool")

def parseFrontmatterTrigger1 (md : Metadata) (y : Yaml) : Except PyExc Trigger :=
  match y with
  | .map kvs =>
    let et := (kvs.lookup "event_type").getD .null
    if !et.truthy then
      .error (.busyValidation "Frontmatter trigger missing required field: event_type")
    else
      match fmTriggerFilter (kvs.lookup "filters") with
      | .error e => .error e
      | .ok filt =>
        match fmTriggerQwp (kvs.lookup "queue_when_paused") with
        | .error e => .error e
        | .ok qwp =>
          match et with
          | .str s =>
            mkTrigger
              { rawText := "Frontmatter trigger: " ++ s, triggerType := "event",
                eventType := some s, filter := filt, operation := md.name,
                queueWhenPaused := qwp }
          | _ => .error (.otherExc "validation error for Trigger: event_type must be a string")
  | _ =>
    .error (.busyValidation
      ("Each trigger in frontmatter must be a dictionary, got: " ++ y.pyTypeName))

def parseFrontmatterTriggers (fmData : Yaml) (md : Metadata) :
    Except PyExc (List Trigger) :=
  let ft :=
    match fmData with
    | .map kvs => kvs.lookup "Triggers"
    | _ => none
  match ft with
  | none => .ok []
  | some v =>
    if !v.truthy then .ok []
    else
      match v with
      | .list xs => exceptMapList (parseFrontmatterTrigger1 md) (yamlListToList xs)
      | _ =>
        .error (.busyValidation "Frontmatter Triggers field must be a list of trigger declarations")

/-! ## Document assembly (`parse_document`) -/

def parseDocumentBody (content : Chars) : Except PyExc ParseResult :=
  match extractMetadata content with
  | .error e => .error e
  | .ok (metadata, remaining, fmData) =>
    let imports := parseImports remaining
    match parseLocalDefinitions remaining with
    | .error e => .error e
    | .ok definitions =>
      let setup := parseSetup remaining
      match parseOperations remaining with
      | .error e => .error e
      | .ok operations =>
        if metadata.type = "[Tool]" then
          match parseToolsSection remaining with
          | .error e => .error e
          | .ok tools =>
            if tools.isEmpty then
              .error (.busyValidation
                "Tool document must contain at least one tool definition in Tools section")
            else
              .ok (.tool
                { metadata := metadata, imports := imports, definitions := definitions,
                  setup := setup, operations := operations, triggers := [],
                  tools := tools })
        else
          match parseFrontmatterTriggers fmData metadata with
          | .error e => .error e
          | .ok fmTriggers =>
            match parseTriggers remaining with
            | .error e => .error e
            | .ok mdTriggers =>
              .ok (.plain
                { metadata := metadata, imports := imports, definitions := definitions,
                  setup := setup, operations := operations,
                  triggers := fmTriggers ++ mdTriggers })

/-- The two `except` clauses of `parse_document`: validation and import
errors re-raised as-is, anything else wrapped into `BusyParseError` with
the inner message. -/
def wrapAtBoundary : PyExc → PyExc
  | .busyValidation m => .busyValidation m
  | .busyImport m => .busyImport m
  | e => .busyParse ("Failed to parse BUSY document: " ++ e.msg)

def parseDocument (content : Chars) : Except PyExc ParseResult :=
  match parseDocumentBody content with
  | .ok d => .ok d
  | .error e => .error (wrapAtBoundary e)

/-! ## Import resolution (`resolve_imports`)

The filesystem is the external collaborator (`exists`/`read_text`), modelled
as a finite map from path strings to file contents.  Paths are plain
strings: `joinPath` models `base_path / rel` and path resolution
(`Path.resolve`) is the identity — the scenarios contain no symlinks or
relative segments.  Python's recursion is bounded only by the interpreter's
recursion limit, modelled by the `fuel` argument (exhaustion standing for
`RecursionError`); theorems instantiate it generously. -/

structure FileSystem where
  files : List (String × String)
deriving DecidableEq, Repr

def FileSystem.read (fs : FileSystem) (p : String) : Option String :=
  (fs.files.find? (fun kv => kv.1 = p)).map (fun kv => kv.2)

def joinPath (base rel : String) : String := base ++ "/" ++ rel

def parentPath (p : String) : String :=
  charsStr ((((strChars p).reverse.dropWhile (· ≠ '/')).drop 1).reverse)

/-- `op.name.lower().replace(" ", "-")`. -/
def anchorSlug (s : String) : String :=
  charsStr ((lowerL (strChars s)).map (fun c => if c = ' ' then '-' else c))

def lowerStr (s : String) : String := charsStr (lowerL (strChars s))

/-- The anchor check of `resolve_imports`: the anchor (lowered) must equal
the slug of an operation or local-definition name of the target. -/
def anchorFound (doc : BusyDocument) (anchor : String) : Bool :=
  doc.operations.any (fun op => anchorSlug op.name = lowerStr anchor) ||
  doc.definitions.any (fun d => anchorSlug d.name = lowerStr anchor)

/-- The loop of `resolve_imports` over one import list.  The visited key is
in scope only while the branch runs: the recursive call receives
`importKey :: visited`, and the continuation over the remaining imports
receives `visited` unchanged (the `finally` discard). -/
def resolveImportsAux : Nat → FileSystem → List Import → String → List String →
    List (String × ParseResult) → Except PyExc (List (String × ParseResult))
  | 0, _, _, _, _, _ => .error (.otherExc "maximum recursion depth exceeded")
  | _ + 1, _, [], _, _, resolved => .ok resolved
  | fuel + 1, fs, imp :: rest, basePath, visited, resolved =>
    let importPath := joinPath basePath imp.path
    match fs.read importPath with
    | none =>
      .error (.busyImport ("Import path " ++ sq ++ imp.path ++ sq ++
        " not found (resolved to " ++ importPath ++ ")"))
    | some content =>
      let importKey := importPath
      if importKey ∈ visited then
        .error (.busyImport ("Circular import detected: " ++ sq ++ imp.path ++ sq ++
          " (resolved to " ++ importPath ++ ")"))
      else
        match parseDocument (strChars content) with
        | .error (.busyParse m) =>
          .error (.busyImport ("Failed to parse imported document " ++ sq ++
            imp.path ++ sq ++ ": " ++ m))
        | .error (.busyValidation m) =>
          .error (.busyImport ("Failed to parse imported document " ++ sq ++
            imp.path ++ sq ++ ": " ++ m))
        | .error e => .error e
        | .ok importedDoc =>
          let anchorOk :=
            match imp.anchor with
            | some a => anchorFound importedDoc.busy a
            | none => true
          if !anchorOk then
            .error (.busyImport ("Anchor " ++ sq ++ "#" ++ imp.anchor.getD "" ++ sq ++
              " not found in " ++ sq ++ imp.path ++ sq))
          else
            let resolved1 := assocUpdate resolved imp.conceptName importedDoc
            match resolveImportsAux fuel fs importedDoc.busy.imports
                (parentPath importPath) (importKey :: visited) [] with
            | .error e => .error e
            | .ok nested =>
              let resolved2 :=
                nested.foldl (fun acc kv => assocUpdate acc kv.1 kv.2) resolved1
              resolveImportsAux fuel fs rest basePath visited resolved2

/-- `resolve_imports(document, base_path, _visited)`. -/
def resolveImports (fuel : Nat) (fs : FileSystem) (pr : ParseResult)
    (basePath : String) (visited : List String) :
    Except PyExc (List (String × ParseResult)) :=
  resolveImportsAux fuel fs pr.busy.imports basePath visited []

/-! ## Concrete documents used by the theorems -/

def c1ToolsHeadingDoc : String :=
  "---\nName: T1Bad\nType: [Tool]\nDescription: d\n---\n# Tools\n\n## T1\nA tool.\n"

def c1OpsHeadingToolDoc : String :=
  "---\nName: T1\nType: [Tool]\nDescription: d\n---\n# Operations\n\n## T1\nA tool.\n"

def c1OpHeadingToolDoc : String :=
  "---\nName: T1s\nType: [Tool]\nDescription: d\n---\n# Operation\n## T1\nA tool.\n"

def c1BracketToolDoc : String :=
  "---\nName: T1b\nType: [Tool]\nDescription: d\n---\n# [Operations]\n## T1\nA tool.\n"

def c1OpSingularDoc : String :=
  "---\nName: O1\nType: [Document]\nDescription: d\n---\n# Operation\n## Op1\n### Steps\n1. Do it\n"

def c2FmDoc : String :=
  "---\nName: MyDoc\nType: [Document]\nDescription: d\nTriggers:\n- event_type: tick\n---\nBody text.\n"

def c2ToolFmDoc : String :=
  "---\nName: T2\nType: [Tool]\nDescription: d\nTriggers:\n- event_type: tick\n---\n# Triggers\n- When a.b, run X\n\n# Operations\n## T1\nA tool.\n"

def c3ACycleDoc : String :=
  "---\nName: A\nType: [Document]\nDescription: a\n---\n[B]: B.md\n"

def c3BCycleDoc : String :=
  "---\nName: B\nType: [Document]\nDescription: b\n---\n[A]: A.md\n"

def c3FsCycle : FileSystem :=
  ⟨[("root/A.md", c3ACycleDoc), ("root/B.md", c3BCycleDoc)]⟩

def c3PrACycle : ParseResult :=
  .plain { metadata := ⟨"A", "[Document]", "a", none⟩,
           imports := [⟨"B", "B.md", none⟩] }

def c3ADiaDoc : String :=
  "---\nName: A\nType: [Document]\nDescription: a\n---\n[B]: B.md\n[C]: C.md\n"

def c3BDiaDoc : String :=
  "---\nName: B\nType: [Document]\nDescription: b\n---\n[D]: D.md\n"

def c3CDoc : String :=
  "---\nName: C\nType: [Document]\nDescription: c\n---\n[D]: D.md\n"

def c3DDoc : String :=
  "---\nName: D\nType: [Document]\nDescription: dd\n---\nLeaf.\n"

def c3FsDiamond : FileSystem :=
  ⟨[("root/A.md", c3ADiaDoc), ("root/B.md", c3BDiaDoc),
    ("root/C.md", c3CDoc), ("root/D.md", c3DDoc)]⟩

def c3PrADia : ParseResult :=
  .plain { metadata := ⟨"A", "[Document]", "a", none⟩,
           imports := [⟨"B", "B.md", none⟩, ⟨"C", "C.md", none⟩] }

def c3PrB : ParseResult :=
  .plain { metadata := ⟨"B", "[Document]", "b", none⟩,
           imports := [⟨"D", "D.md", none⟩] }

def c3PrC : ParseResult :=
  .plain { metadata := ⟨"C", "[Document]", "c", none⟩,
           imports := [⟨"D", "D.md", none⟩] }

def c3PrD : ParseResult :=
  .plain { metadata := ⟨"D", "[Document]", "dd", none⟩ }

def c5OpsDoc : String :=
  "---\nName: C5\nType: [Document]\nDescription: d\n---\n# Operations\n## RealOp\n### Steps\n1. Run:\n```\n## FakeOp\n```\n2. Done\n"

def c5ToolDoc : String :=
  "---\nName: C5T\nType: [Tool]\nDescription: d\n---\n# Operations\n## RealTool\nDoes things:\n```\n## FakeTool\n```\n"

def c7StepZeroDoc : String :=
  "---\nName: C7\nType: [Document]\nDescription: d\n---\n# Operations\n## Op1\n### Steps\n0. Bad step\n"

def c7NoFmDoc : String := "No frontmatter here.\n"

def c8FlowDoc : String :=
  "---\nName: C8\nType: [Operation]\nDescription: d\n---\nBody.\n"

def c8QuotedDoc : String :=
  "---\nName: C8b\nType: \"[Operation]\"\nDescription: d\n---\nBody.\n"

def c8EmptySeqDoc : String :=
  "---\nName: C8c\nType: []\nDescription: d\n---\nBody.\n"

def c10Doc : String :=
  "---\nName: C10\nType: [Document]\nDescription: d\n---\n# Setup\n[One]: one.md\n\n# Operations\n## Op1\n### Steps\n1. Use this:\n```\n[Two]: two.md#anchor-x\n```\n"

def c10FenceOnlyDoc : String :=
  "---\nName: C10b\nType: [Document]\nDescription: d\n---\n# Operations\n## Op1\n### Steps\n1. Use:\n```\n[Dep]: dep.md\n```\n"

def c9Doc : String :=
  "---\nName: C9\nType: [Document]\nDescription: d\n---\n# Triggers\n- When gmail.message.received from *@lead.com, run RespondToLead\n"

/-- The parsed value of `c2FmDoc`. -/
def c2FmVal : BusyDocument :=
  { metadata := ⟨"MyDoc", "[Document]", "d", none⟩,
    triggers := [{ rawText := "Frontmatter trigger: tick", triggerType := "event",
                   eventType := some "tick", operation := "MyDoc" }] }

/-- The parsed value of `c2ToolFmDoc`. -/
def c2ToolVal : ToolDocument :=
  { metadata := ⟨"T2", "[Tool]", "d", none⟩,
    operations := [⟨"T1", [], [], [], none⟩],
    triggers := [],
    tools := [⟨"T1", "A tool.", [], [], none, none⟩] }

/-- The body of `c1ToolsHeadingDoc` after its frontmatter. -/
def c6WRest : Chars := strChars "# Tools\n\n## T1\nA tool.\n"

/-- The loaded frontmatter of `c1ToolsHeadingDoc`. -/
def c6WFm : Yaml :=
  .map (.cons "Name" (.str "T1Bad")
    (.cons "Type" (.list (.cons (.str "Tool") .nil))
      (.cons "Description" (.str "d") .nil)))

/-- A frontmatter mapping with one declared trigger. -/
def c2WFm : Yaml :=
  .map (.cons "Triggers"
    (.list (.cons (.map (.cons "event_type" (.str "tick") .nil)) .nil)) .nil)

def c2WMd : Metadata := ⟨"MyDoc", "[Document]", "d", none⟩

def c2WTrig : Trigger :=
  { rawText := "Frontmatter trigger: tick", triggerType := "event",
    eventType := some "tick", operation := "MyDoc" }

/-! ## Helper theorems -/

/-- In `parse_document`, a failing body surfaces through the two `except`
clauses as `wrapAtBoundary` of the inner exception. -/
theorem bodyError_wrapped : ∀ content e, parseDocumentBody content = .error e →
    parseDocument content = .error (wrapAtBoundary e) := by
  intro content e h
  simp only [parseDocument, h]

/-- Every trigger built by `_parse_frontmatter_triggers` from one mapping
targets the document metadata name. -/
theorem fmTrigger1_operation (md : Metadata) (y : Yaml) (tr : Trigger)
    (h : parseFrontmatterTrigger1 md y = .ok tr) : tr.operation = md.name := by
  cases y <;> simp only [parseFrontmatterTrigger1] at h
  case str => simp at h
  case bool => simp at h
  case null => simp at h
  case list => simp at h
  case map kvs =>
    split at h
    · simp at h
    · split at h
      · simp at h
      · split at h
        · simp at h
        · split at h
          · simp only [mkTrigger] at h
            split at h
            · simp at h
            · split at h
              · simp at h
              · simp only [Except.ok.injEq] at h
                subst h
                rfl
          · simp at h

theorem fmTriggersList_operation (md : Metadata) :
    ∀ ys ts, exceptMapList (parseFrontmatterTrigger1 md) ys = .ok ts →
      ∀ t ∈ ts, t.operation = md.name := by
  intro ys
  induction ys with
  | nil =>
    intro ts h t ht
    simp only [exceptMapList, Except.ok.injEq] at h
    subst h
    simp at ht
  | cons y ys ih =>
    intro ts h t ht
    simp only [exceptMapList] at h
    cases h1 : parseFrontmatterTrigger1 md y with
    | error e => rw [h1] at h; simp at h
    | ok b =>
      rw [h1] at h
      cases h2 : exceptMapList (parseFrontmatterTrigger1 md) ys with
      | error e => rw [h2] at h; simp [Except.map] at h
      | ok rs =>
        rw [h2] at h
        simp only [Except.map, Except.ok.injEq] at h
        subst h
        cases ht with
        | head => exact fmTrigger1_operation md y t h1
        | tail _ hmem => exact ih rs h2 t hmem

/-- All frontmatter-declared triggers target the document metadata name. -/
theorem fmTriggers_operation : ∀ fm md ts, parseFrontmatterTriggers fm md = .ok ts →
    ∀ t ∈ ts, t.operation = md.name := by
  intro fm md ts h t ht
  simp only [parseFrontmatterTriggers] at h
  split at h
  · simp only [Except.ok.injEq] at h; subst h; simp at ht
  · split at h
    · simp only [Except.ok.injEq] at h; subst h; simp at ht
    · split at h
      · exact fmTriggersList_operation md _ ts h t ht
      · simp at h

/-- A successful tool-variant parse always has empty triggers and a
non-empty tools list. -/
theorem toolVariant_invariants : ∀ content td, parseDocument content = .ok (.tool td) →
    td.triggers = [] ∧ td.tools ≠ [] := by
  intro content td h
  simp only [parseDocument] at h
  cases hb : parseDocumentBody content with
  | error e => rw [hb] at h; simp at h
  | ok pr =>
    rw [hb] at h
    simp only [Except.ok.injEq] at h
    subst h
    simp only [parseDocumentBody] at hb
    split at hb
    · simp at hb
    · split at hb
      · simp at hb
      · split at hb
        · simp at hb
        · split at hb
          · split at hb
            · simp at hb
            · split at hb
              · simp at hb
              · rename_i tools hne
                simp only [Except.ok.injEq, ParseResult.tool.injEq] at hb
                subst hb
                refine ⟨rfl, ?_⟩
                intro hnil
                simp only [] at hnil
                rw [hnil] at hne
                simp at hne
          · split at hb
            · simp at hb
            · split at hb
              · simp at hb
              · simp at hb

/-- A successful plain-variant parse never has the Tool type tag. -/
theorem plainVariant_not_toolType : ∀ content d, parseDocument content = .ok (.plain d) →
    d.metadata.type ≠ "[Tool]" := by
  intro content d h
  simp only [parseDocument] at h
  cases hb : parseDocumentBody content with
  | error e => rw [hb] at h; simp at h
  | ok pr =>
    rw [hb] at h
    simp only [Except.ok.injEq] at h
    subst h
    simp only [parseDocumentBody] at hb
    split at hb
    · simp at hb
    · split at hb
      · simp at hb
      · split at hb
        · simp at hb
        · split at hb
          · split at hb
            · simp at hb
            · split at hb
              · simp at hb
              · simp at hb
          · rename_i hty
            split at hb
            · simp at hb
            · split at hb
              · simp at hb
              · simp only [Except.ok.injEq, ParseResult.plain.injEq] at hb
                subst hb
                exact hty

/-- A Tool-typed document whose body yields zero tools fails with the
zero-tools validation error. -/
theorem toolType_zero_tools_error : ∀ content md rest fm,
    extractMetadata content = .ok (md, rest, fm) →
    md.type = "[Tool]" →
    parseToolsSection rest = .ok [] →
    (∃ defs, parseLocalDefinitions rest = .ok defs) →
    (∃ ops, parseOperations rest = .ok ops) →
    parseDocument content =
      .error (.busyValidation
        "Tool document must contain at least one tool definition in Tools section") := by
  intro content md rest fm hmeta htype htools hdefs hops
  obtain ⟨defs, hdefs⟩ := hdefs
  obtain ⟨ops, hops⟩ := hops
  simp only [parseDocument, parseDocumentBody, hmeta, hdefs, hops, htype, htools,
    List.isEmpty, if_true, wrapAtBoundary]

/-! ## Claim theorems -/

/-- C1 counterexample: the claim says a Tool-type document whose tools are
declared under a `# Tools` heading parses successfully with those tools, and
that the operations section is located via a heading labeled Operations or
Operation.  On the code, the `# Tools` document raises the zero-tools
validation error (the tools pattern looks for the Operations label family),
and a document declaring an operation under a singular `# Operation` heading
parses with an empty operations list. -/
theorem c1_claim_counterexample :
    parseDocument (strChars c1ToolsHeadingDoc) =
      .error (.busyValidation
        "Tool document must contain at least one tool definition in Tools section") ∧
    (parseDocument (strChars c1OpSingularDoc)).map (fun pr => pr.busy.operations) =
      .ok [] := by decide

/-- C1 amended: the tools section of a Tool-type document is located via a
top-level heading labeled Operations or Operation (optionally
bracket-wrapped, case-sensitive) — not Tools/Tool, under which no tools are
found — while the operations section is located only via the plural
Operations (optionally bracket-wrapped). -/
theorem c1_amended_heading_families :
    parseDocument (strChars c1OpsHeadingToolDoc) =
      .ok (.tool
        { metadata := ⟨"T1", "[Tool]", "d", none⟩,
          operations := [⟨"T1", [], [], [], none⟩],
          tools := [⟨"T1", "A tool.", [], [], none, none⟩] }) ∧
    parseDocument (strChars c1OpHeadingToolDoc) =
      .ok (.tool
        { metadata := ⟨"T1s", "[Tool]", "d", none⟩,
          operations := [],
          tools := [⟨"T1", "A tool.", [], [], none, none⟩] }) ∧
    parseDocument (strChars c1BracketToolDoc) =
      .ok (.tool
        { metadata := ⟨"T1b", "[Tool]", "d", none⟩,
          operations := [⟨"T1", [], [], [], none⟩],
          tools := [⟨"T1", "A tool.", [], [], none, none⟩] }) ∧
    parseToolsSection (strChars "# Tools\n## T1\nA tool.\n") = .ok [] ∧
    parseOperations (strChars "# Operations\n## Op1\nx\n") =
      .ok [⟨"Op1", [], [], [], none⟩] ∧
    parseOperations (strChars "# Operation\n## Op1\nx\n") = .ok [] := by decide

/-- C2 counterexample: the claim says a document whose type is neither the
Operation tag nor the Tool tag materializes no frontmatter triggers; a
Document-typed document with a frontmatter Triggers key parses with one
trigger. -/
theorem c2_claim_counterexample :
    (parseDocument (strChars c2FmDoc)).map
      (fun pr => (pr.busy.metadata.type, pr.busy.triggers.length)) =
      .ok ("[Document]", 1) := by decide

/-- C2 amended: frontmatter-declared triggers are materialized for every
document whose type is not the Tool tag (Tool-type documents drop them),
and every materialized frontmatter trigger targets the document metadata
name. -/
theorem c2_amended_frontmatter_triggers :
    (∀ fm md ts, parseFrontmatterTriggers fm md = .ok ts →
      ∀ t ∈ ts, t.operation = md.name) ∧
    parseDocument (strChars c2FmDoc) = .ok (.plain c2FmVal) ∧
    (parseDocument (strChars c2ToolFmDoc)).map (fun pr => pr.busy.triggers) =
      .ok [] :=
  ⟨fmTriggers_operation, by decide, by decide⟩

theorem c2_amended_frontmatter_triggers_witness :
    parseFrontmatterTriggers c2WFm c2WMd = .ok [c2WTrig] ∧
    c2WTrig.operation = c2WMd.name :=
  ⟨by decide,
   c2_amended_frontmatter_triggers.1 c2WFm c2WMd [c2WTrig] (by decide) c2WTrig
     (by decide)⟩

/-- C3: a two-document cycle (A imports B, B imports A) raises the
circular-import error naming the offending path, while the diamond
(A imports B and C, each of which imports D) resolves successfully, with D
resolved once per branch and no false cycle report. -/
theorem c3_import_cycle_behaviour :
    parseDocument (strChars c3ACycleDoc) = .ok c3PrACycle ∧
    resolveImports 10 c3FsCycle c3PrACycle "root" [] =
      .error (.busyImport ("Circular import detected: " ++ sq ++ "B.md" ++ sq ++
        " (resolved to root/B.md)")) ∧
    parseDocument (strChars c3ADiaDoc) = .ok c3PrADia ∧
    resolveImports 10 c3FsDiamond c3PrADia "root" [] =
      .ok [("B", c3PrB), ("D", c3PrD), ("C", c3PrC)] := by decide

/-- C4: the alarm-bullet time grammar — the three documented examples, the
pm/am hour adjustments at 12, the `:mm` minute, the fixed Monday-first
weekday order, and the validation error citing the bullet text when the
phrase has no hour digits. -/
theorem c4_alarm_time_grammar :
    parseTriggerDeclaration
        (strChars "Set alarm for 6am each morning to run DailyReview") =
      .ok { rawText := "Set alarm for 6am each morning to run DailyReview",
            triggerType := "alarm", schedule := some "0 6 * * *",
            operation := "DailyReview" } ∧
    parseTriggerDeclaration (strChars "Set alarm for 3pm daily to run X") =
      .ok { rawText := "Set alarm for 3pm daily to run X",
            triggerType := "alarm", schedule := some "0 15 * * *",
            operation := "X" } ∧
    parseTriggerDeclaration (strChars "Set alarm for 9am every Monday to run X") =
      .ok { rawText := "Set alarm for 9am every Monday to run X",
            triggerType := "alarm", schedule := some "0 9 * * 1",
            operation := "X" } ∧
    parseTimeSpec (strChars "12pm") = .ok (strChars "0 12 * * *") ∧
    parseTimeSpec (strChars "12am") = .ok (strChars "0 0 * * *") ∧
    parseTimeSpec (strChars "14:30") = .ok (strChars "30 14 * * *") ∧
    parseTimeSpec (strChars "9:30pm every sunday and monday") =
      .ok (strChars "30 21 * * 1") ∧
    parseTriggers (strChars "# Triggers\n- Set alarm for noon to run X\n") =
      .error (.busyValidation ("Invalid trigger declaration " ++ sq ++
        "Set alarm for noon to run X" ++ sq ++ ": Cannot parse time from " ++ sq ++
        "noon" ++ sq)) := by decide

/-- C5: a `##` heading inside a fenced code block of an Operations or Tools
section does not start a new item, and the fenced text is preserved
verbatim inside the enclosing item (a step instruction, a tool
description). -/
theorem c5_fenced_headings_excluded :
    (parseDocument (strChars c5OpsDoc)).map (fun pr => pr.busy.operations) =
      .ok [⟨"RealOp", [], [],
            [⟨1, "Run:\n```\n## FakeOp\n```", none⟩, ⟨2, "Done", none⟩], none⟩] ∧
    parseDocument (strChars c5ToolDoc) =
      .ok (.tool
        { metadata := ⟨"C5T", "[Tool]", "d", none⟩,
          operations := [⟨"RealTool", [], [], [], none⟩],
          tools := [⟨"RealTool", "Does things:\n```\n## FakeTool\n```",
                    [], [], none, none⟩] }) := by decide

/-- C6: a Tool-typed document with zero parsed tools raises the zero-tools
validation error; every successful tool-variant result has empty triggers
and at least one tool; no plain result carries the Tool tag; concretely, a
Tool document with both a frontmatter Triggers key and a markdown Triggers
section parses to the tool variant with empty triggers. -/
theorem c6_tool_document_rules :
    (∀ content td, parseDocument content = .ok (.tool td) →
      td.triggers = [] ∧ td.tools ≠ []) ∧
    (∀ content d, parseDocument content = .ok (.plain d) →
      d.metadata.type ≠ "[Tool]") ∧
    (∀ content md rest fm, extractMetadata content = .ok (md, rest, fm) →
      md.type = "[Tool]" →
      parseToolsSection rest = .ok [] →
      (∃ defs, parseLocalDefinitions rest = .ok defs) →
      (∃ ops, parseOperations rest = .ok ops) →
      parseDocument content =
        .error (.busyValidation
          "Tool document must contain at least one tool definition in Tools section")) ∧
    parseDocument (strChars c2ToolFmDoc) = .ok (.tool c2ToolVal) ∧
    c2ToolVal.triggers = [] :=
  ⟨toolVariant_invariants, plainVariant_not_toolType, toolType_zero_tools_error,
   by decide, by decide⟩

theorem c6_tool_document_rules_witness :
    c2ToolVal.triggers = [] ∧ c2ToolVal.tools ≠ [] ∧
    parseDocument (strChars c1ToolsHeadingDoc) =
      .error (.busyValidation
        "Tool document must contain at least one tool definition in Tools section") :=
  ⟨(c6_tool_document_rules.1 (strChars c2ToolFmDoc) c2ToolVal (by decide)).1,
   (c6_tool_document_rules.1 (strChars c2ToolFmDoc) c2ToolVal (by decide)).2,
   c6_tool_document_rules.2.2.1 (strChars c1ToolsHeadingDoc)
     ⟨"T1Bad", "[Tool]", "d", none⟩ c6WRest c6WFm (by decide) (by decide)
     (by decide) ⟨[], by decide⟩ ⟨[], by decide⟩⟩

/-- C7: an inner validation or import error leaves `parse_document`
unchanged; any other inner exception is converted exactly once at the
assembler boundary into the parse error carrying the inner message.
Concretely, a pydantic step-number failure surfaces as a wrapped parse
error and a missing-frontmatter validation error passes through
untouched. -/
theorem c7_error_propagation :
    (∀ content e, parseDocumentBody content = .error e →
      parseDocument content = .error (wrapAtBoundary e)) ∧
    (∀ m, wrapAtBoundary (.busyValidation m) = .busyValidation m) ∧
    (∀ m, wrapAtBoundary (.busyImport m) = .busyImport m) ∧
    (∀ m, wrapAtBoundary (.otherExc m) =
      .busyParse ("Failed to parse BUSY document: " ++ m)) ∧
    parseDocument (strChars c7StepZeroDoc) =
      .error (.busyParse
        "Failed to parse BUSY document: validation error for Step: step_number must be >= 1") ∧
    parseDocument (strChars c7NoFmDoc) =
      .error (.busyValidation
        "Document missing metadata section (YAML frontmatter with --- fences)") :=
  ⟨bodyError_wrapped, fun _ => rfl, fun _ => rfl, fun _ => rfl, by decide, by decide⟩

theorem c7_error_propagation_witness :
    parseDocument (strChars c7StepZeroDoc) =
      .error (wrapAtBoundary
        (.otherExc "validation error for Step: step_number must be >= 1")) :=
  c7_error_propagation.1 (strChars c7StepZeroDoc)
    (.otherExc "validation error for Step: step_number must be >= 1") (by decide)

/-- C8: a Type written as a bracketed word reaches metadata.type as the
literal bracket string whether the YAML layer decoded it as a sequence or a
scalar, and an empty sequence becomes the literal empty-bracket string. -/
theorem c8_type_bracket_rewinding :
    (∀ s, rewindType (.str s) = .str s) ∧
    (∀ s tl, rewindType (.list (.cons (.str s) tl)) = .str ("[" ++ s ++ "]")) ∧
    rewindType (.list .nil) = .str "[]" ∧
    (parseDocument (strChars c8FlowDoc)).map (fun pr => pr.busy.metadata.type) =
      .ok "[Operation]" ∧
    (parseDocument (strChars c8QuotedDoc)).map (fun pr => pr.busy.metadata.type) =
      .ok "[Operation]" ∧
    (parseDocument (strChars c8EmptySeqDoc)).map (fun pr => pr.busy.metadata.type) =
      .ok "[]" :=
  ⟨fun _ => rfl, fun _ _ => rfl, rfl, by decide, by decide, by decide⟩

/-- C9: the event-bullet grammar — the documented example with its verbatim
from-filter, an event bullet without a filter, and a filter phrase kept
verbatim with no structured parsing; queue_when_paused is true in each. -/
theorem c9_event_trigger_grammar :
    parseTriggerDeclaration
        (strChars "When gmail.message.received from *@lead.com, run RespondToLead") =
      .ok { rawText := "When gmail.message.received from *@lead.com, run RespondToLead",
            triggerType := "event", eventType := some "gmail.message.received",
            filter := some [("from", "*@lead.com")],
            operation := "RespondToLead", queueWhenPaused := true } ∧
    parseTriggerDeclaration (strChars "When a.b, run X") =
      .ok { rawText := "When a.b, run X", triggerType := "event",
            eventType := some "a.b", operation := "X",
            queueWhenPaused := true } ∧
    parseTriggerDeclaration (strChars "When a.b from John Smith x, run Y") =
      .ok { rawText := "When a.b from John Smith x, run Y", triggerType := "event",
            eventType := some "a.b", filter := some [("from", "John Smith x")],
            operation := "Y", queueWhenPaused := true } ∧
    (parseDocument (strChars c9Doc)).map (fun pr => pr.busy.triggers) =
      .ok [{ rawText := "When gmail.message.received from *@lead.com, run RespondToLead",
             triggerType := "event", eventType := some "gmail.message.received",
             filter := some [("from", "*@lead.com")],
             operation := "RespondToLead", queueWhenPaused := true }] := by decide

/-- C10: import scanning applies neither fence exclusion nor section
confinement — reference-link patterns inside a Setup section and inside a
fenced code block within a step both produce Import entries, and a document
whose only pattern sits inside a fence still gets a non-empty imports
list. -/
theorem c10_imports_scanned_everywhere :
    (parseDocument (strChars c10Doc)).map (fun pr => pr.busy.imports) =
      .ok [⟨"One", "one.md", none⟩, ⟨"Two", "two.md", some "anchor-x"⟩] ∧
    (parseDocument (strChars c10FenceOnlyDoc)).map (fun pr => pr.busy.imports) =
      .ok [⟨"Dep", "dep.md", none⟩] := by decide

end Busy
